import Mathlib

/-!
Shallow embedding of the yt-dlp FastAPI service (src/main.py).

Environment-dependent state (the YOUTUBE_COOKIES variable, the downloads
directory contents, the process clock and the random UUID draw) and the
external extractor (yt_dlp) are passed in as explicit parameters, so every
handler becomes a pure function of those inputs.
-/

deriving instance DecidableEq for Except

namespace YtDlpApi

/-- FastAPI/starlette HTTPException: a status code and a detail string. -/
structure HTTPException where
  status_code : Nat
  detail : String
deriving Repr, DecidableEq

/-- Python exceptions that can cross the handlers of main.py:
a fastapi HTTPException, a yt_dlp.utils.DownloadError, or any other
exception (identified by its message). -/
inductive PyErr where
  | httpExc (status_code : Nat) (detail : String)
  | downloadError (msg : String)
  | otherError (msg : String)
deriving Repr, DecidableEq

/-- Python str(e). starlette HTTPException.__str__ is
f-string of status_code, ": ", detail; DownloadError and plain exceptions
render their message. -/
def pyStr : PyErr → String
  | .httpExc code detail => toString code ++ ": " ++ detail
  | .downloadError msg => msg
  | .otherError msg => msg

/-- Default downloads directory (main.py line 14, os.getenv default). -/
def DOWNLOADS_DIR : String := "/tmp/downloads"

/-- Python truthiness test of line 19: not COOKIES_CONTENT is True when the
environment variable is unset (None) or the empty string. -/
def COOKIES_falsy (c : Option String) : Bool :=
  match c with
  | none => true
  | some s => s.isEmpty

/-- verify_cookies (main.py lines 17-24). -/
def verify_cookies (cookiesEnv : Option String) : Except HTTPException String :=
  if COOKIES_falsy cookiesEnv then
    .error { status_code := 500,
             detail := "YouTube cookies not configured. Please set YOUTUBE_COOKIES environment variable." }
  else
    .ok (cookiesEnv.getD "")

/-- Python \w, ASCII approximation: alphanumeric or underscore (Python re
additionally admits non-ASCII Unicode word characters). -/
def isWordChar (c : Char) : Bool := c.isAlphanum || c = '_'

/-- Python \s: ASCII whitespace characters. -/
def isSpaceChar (c : Char) : Bool :=
  c = ' ' || c = '\t' || c = '\n' || c = '\x0d' || c = '\x0b' || c = '\x0c'

/-- A character surviving re.sub removing the class complement of word,
whitespace and hyphen characters (main.py line 28). -/
def keepChar (c : Char) : Bool := isWordChar c || isSpaceChar c || c = '-'

/-- re.sub collapsing each maximal whitespace run to a single hyphen
(main.py line 29). The boolean flag records whether the previous character
belonged to a whitespace run. -/
def collapseWsAux : Bool → List Char → List Char
  | _, [] => []
  | prevWs, c :: rest =>
    if isSpaceChar c then
      (if prevWs then [] else ['-']) ++ collapseWsAux true rest
    else
      c :: collapseWsAux false rest

/-- create_safe_filename (main.py lines 26-35). The current date rendering
(strftime of YYYYMMDD) and the first 8 characters of str(uuid.uuid4()) are
the timestamp and unique_id parameters. -/
def create_safe_filename (timestamp unique_id : String) (title : String) : String :=
  let safe_title1 := title.data.filter keepChar
  let safe_title := collapseWsAux false safe_title1
  timestamp ++ "_" ++ String.mk safe_title ++ "_" ++ unique_id

/-- The options dictionary built by get_yt_dlp_options (main.py lines 41-59). -/
structure YtDlpOptions where
  format : String
  outtmpl : String
  quiet : Bool
  no_warnings : Bool
  nocheckcertificate : Bool
  extractaudio : Bool
  audioformat : String
  audioquality : String
  cookies : String
  postprocessor_key : String
  preferredcodec : String
  preferredquality : String
  user_agent : String
deriving Repr, DecidableEq

/-- get_yt_dlp_options (main.py lines 37-59): verifies the cookies, then
returns the option dictionary. -/
def get_yt_dlp_options (cookiesEnv : Option String) (downloadsDir : String)
    (base_filename format quality : String) : Except HTTPException YtDlpOptions :=
  match verify_cookies cookiesEnv with
  | .error e => .error e
  | .ok cookies =>
    .ok { format := "bestaudio/best",
          outtmpl := downloadsDir ++ "/" ++ base_filename ++ ".%(ext)s",
          quiet := true,
          no_warnings := true,
          nocheckcertificate := true,
          extractaudio := true,
          audioformat := format,
          audioquality := quality,
          cookies := cookies,
          postprocessor_key := "FFmpegExtractAudio",
          preferredcodec := format,
          preferredquality := quality,
          user_agent := "Mozilla/5.0 (Windows NT 10.0; Win64; x64) AppleWebKit/537.36 (KHTML, like Gecko) Chrome/91.0.4472.124 Safari/537.36" }

/-- One entry of the formats list of an extractor info dict. Optional keys
are Option-valued (info.get with a default at use sites). -/
structure YtFormat where
  format_id : String
  ext : String
  resolution : Option String
  filesize : Option Int
  acodec : Option String
  vcodec : Option String
deriving Repr, DecidableEq

/-- The info dict returned by ydl.extract_info. -/
structure VideoInfo where
  title : String
  duration : Option Int
  description : Option String
  thumbnail : Option String
  formats : List YtFormat
deriving Repr, DecidableEq

/-- The external extractor, as an oracle fixing the outcome of the two
extract_info calls a request can make: probe is extract_info with
download=False, download is extract_info with download=True. -/
structure Extractor where
  probe : Except PyErr VideoInfo
  download : Except PyErr VideoInfo
deriving Repr, DecidableEq

/-- Python-in test: does s contain pat as a contiguous substring. -/
def listContainsSub (pat : List Char) : List Char → Bool
  | [] => pat.isEmpty
  | c :: rest => pat.isPrefixOf (c :: rest) || listContainsSub pat rest

def strContains (s pat : String) : Bool := listContainsSub pat.data s.data

/-- The except clauses of download_audio (main.py lines 101-109): a
DownloadError whose message mentions the age gate becomes the dedicated
400 message, any other DownloadError becomes 400 with its message, and
every other exception (HTTPException included: fastapi HTTPException is a
subclass of Exception, so the broad except catches it) becomes 400 with
str(e) as detail. -/
def translate_exc (e : PyErr) : HTTPException :=
  match e with
  | .downloadError msg =>
    if strContains msg "Sign in to confirm your age" then
      { status_code := 400,
        detail := "Age-restricted video. Please check your cookies configuration." }
    else
      { status_code := 400, detail := msg }
  | e => { status_code := 400, detail := pyStr e }

/-- os.path.join for the two-argument uses in main.py. -/
def pyJoin (a b : String) : String :=
  if b.data.head? = some '/' then b
  else if a.data.getLast? = some '/' || a = "" then a ++ b
  else a ++ "/" ++ b

/-- The 200 body of POST /download/audio (main.py lines 92-100). -/
structure DownloadResponse where
  status : String
  title : String
  duration : Option Int
  filename : String
  format : String
  quality : String
  download_url : String
deriving Repr, DecidableEq

/-- Outcome of a download_audio invocation: the HTTP result, how many
extract_info calls were made, and the downloads directory contents after
the rename workaround (a list of existing full paths). -/
structure HandlerOutcome (α : Type) where
  result : Except HTTPException α
  extractorCalls : Nat
  fs : List String
deriving Repr, DecidableEq

/-- download_audio (main.py lines 61-109). fs0 is the set of full paths
existing in the filesystem when the rename workaround of lines 86-90 runs. -/
def download_audio (cookiesEnv : Option String) (downloadsDir : String)
    (ex : Extractor) (fs0 : List String) (timestamp unique_id : String)
    (url format quality : String) : HandlerOutcome DownloadResponse :=
  match get_yt_dlp_options cookiesEnv downloadsDir "" format quality with
  | .error e => { result := .error (translate_exc (.httpExc e.status_code e.detail)),
                  extractorCalls := 0, fs := fs0 }
  | .ok _ =>
    match ex.probe with
    | .error e => { result := .error (translate_exc e), extractorCalls := 1, fs := fs0 }
    | .ok info =>
      let base_filename := create_safe_filename timestamp unique_id info.title
      let final_filename := base_filename ++ "." ++ format
      match get_yt_dlp_options cookiesEnv downloadsDir base_filename format quality with
      | .error e => { result := .error (translate_exc (.httpExc e.status_code e.detail)),
                      extractorCalls := 1, fs := fs0 }
      | .ok _ =>
        match ex.download with
        | .error e => { result := .error (translate_exc e), extractorCalls := 2, fs := fs0 }
        | .ok info2 =>
          let file_path := pyJoin downloadsDir final_filename
          let fs1 :=
            if file_path ∈ fs0 then fs0
            else
              let double_ext_path := pyJoin downloadsDir (final_filename ++ "." ++ format)
              if double_ext_path ∈ fs0 then
                file_path :: fs0.erase double_ext_path
              else fs0
          { result := .ok { status := "success",
                            title := info2.title,
                            duration := info2.duration,
                            filename := final_filename,
                            format := format,
                            quality := quality,
                            download_url := "/download/" ++ final_filename },
            extractorCalls := 2, fs := fs1 }

/-- Python single-character str.split. -/
def pySplitChar (sep : Char) : List Char → List (List Char)
  | [] => [[]]
  | c :: rest =>
    match pySplitChar sep rest with
    | [] => [[]]
    | grp :: groups =>
      if c = sep then [] :: grp :: groups else (c :: grp) :: groups

/-- filename.split with a dot, indexed at -1 (main.py line 115). -/
def last_dot_component (s : String) : String :=
  String.mk ((pySplitChar '.' s.data).getLastD [])

/-- Python str.replace: replace every non-overlapping occurrence of pat,
scanning left to right. Fuel is the length of the scanned list. -/
def replaceAllAux (pat rep : List Char) : Nat → List Char → List Char
  | 0, l => l
  | _ + 1, [] => []
  | fuel + 1, c :: rest =>
    if pat ≠ [] ∧ pat.isPrefixOf (c :: rest) then
      rep ++ replaceAllAux pat rep fuel ((c :: rest).drop pat.length)
    else
      c :: replaceAllAux pat rep fuel rest

def pyReplace (s pat rep : String) : String :=
  String.mk (replaceAllAux pat.data rep.data s.data.length s.data)

/-- Python repr of a list of plain strings, as an f-string renders it
(main.py line 127). -/
def pyListRepr (l : List String) : String :=
  let q := String.singleton (Char.ofNat 39)
  "[" ++ String.intercalate ", " (l.map (fun s => q ++ s ++ q)) ++ "]"

/-- The possible_paths list of main.py lines 113-117. -/
def possible_paths (downloadsDir filename : String) : List String :=
  [ pyJoin downloadsDir filename,
    pyJoin downloadsDir (filename ++ "." ++ last_dot_component filename),
    pyJoin downloadsDir (pyReplace filename ".mp3.mp3" ".mp3") ]

/-- The data of the FileResponse built by get_file (main.py lines 121-125). -/
structure FileResponseData where
  path : String
  filename : String
  media_type : String
deriving Repr, DecidableEq

/-- get_file (main.py lines 111-127). fs is the set of existing full paths;
the loop serves the first candidate that exists. -/
def get_file (downloadsDir : String) (fs : List String) (filename : String) :
    Except HTTPException FileResponseData :=
  match (possible_paths downloadsDir filename).find? (fun p => decide (p ∈ fs)) with
  | some file_path =>
    .ok { path := file_path,
          filename := pyReplace filename ".mp3.mp3" ".mp3",
          media_type := "audio/mpeg" }
  | none =>
    .error { status_code := 404,
             detail := "File not found. Tried paths: " ++ pyListRepr (possible_paths downloadsDir filename) }

/-- One entry of the GET /downloads listing (main.py lines 137-141). -/
structure FileEntry where
  filename : String
  size : Nat
  download_url : String
deriving Repr, DecidableEq

structure FilesResponse where
  files : List FileEntry
deriving Repr, DecidableEq

/-- list_downloads (main.py lines 129-143). The directory state is none
when the downloads directory does not exist, otherwise the list of its
entries paired with their sizes (os.listdir order). -/
def list_downloads (dirState : Option (List (String × Nat))) : FilesResponse :=
  match dirState with
  | none => { files := [] }
  | some entries =>
    { files := entries.map (fun e =>
        { filename := e.1, size := e.2, download_url := "/download/" ++ e.1 }) }

/-- A scalar that Python would place in the /info response: an integer or a
fallback string (info.get with a string default on an integer field). -/
inductive PyScalar where
  | int (n : Int)
  | str (s : String)
deriving Repr, DecidableEq

/-- One entry of the formats list of the /info response (main.py 157-164). -/
structure InfoFormatOut where
  format_id : String
  ext : String
  resolution : String
  filesize : PyScalar
  acodec : String
  vcodec : String
deriving Repr, DecidableEq

/-- The 200 body of GET /info (main.py lines 151-167). -/
structure InfoResponse where
  title : String
  duration : Option Int
  description : Option String
  thumbnail : Option String
  formats : List InfoFormatOut
deriving Repr, DecidableEq

/-- get_video_info (main.py lines 145-169): options (cookie check) first,
then one extract_info call; every exception is surfaced as 400 with str(e).
The second component counts extract_info calls. -/
def get_video_info (cookiesEnv : Option String) (downloadsDir : String)
    (ex : Extractor) (url : String) : Except HTTPException InfoResponse × Nat :=
  match get_yt_dlp_options cookiesEnv downloadsDir "" "mp3" "192" with
  | .error e => (.error { status_code := 400, detail := pyStr (.httpExc e.status_code e.detail) }, 0)
  | .ok _ =>
    match ex.probe with
    | .error e => (.error { status_code := 400, detail := pyStr e }, 1)
    | .ok info =>
      (.ok { title := info.title,
             duration := info.duration,
             description := info.description,
             thumbnail := info.thumbnail,
             formats := info.formats.map (fun f =>
               { format_id := f.format_id,
                 ext := f.ext,
                 resolution := f.resolution.getD "N/A",
                 filesize := match f.filesize with
                   | some n => .int n
                   | none => .str "N/A",
                 acodec := f.acodec.getD "N/A",
                 vcodec := f.vcodec.getD "N/A" }) }, 1)

/-- The GET /health body (main.py lines 173-178). -/
structure HealthResponse where
  status : String
  timestamp : String
  cookies_configured : Bool
  downloads_dir : String
deriving Repr, DecidableEq

/-- health_check (main.py lines 171-178): a pure rendering of process
state, bool of COOKIES_CONTENT is the negation of Python falsiness. -/
def health_check (cookiesEnv : Option String) (downloadsDir : String)
    (now : String) : HealthResponse :=
  { status := "healthy",
    timestamp := now,
    cookies_configured := !(COOKIES_falsy cookiesEnv),
    downloads_dir := downloadsDir }

/-- A lowercase hexadecimal digit, the alphabet of str(uuid.uuid4()) apart
from its dashes (the first dash sits at index 8, past the slice). -/
def isHexChar (c : Char) : Bool := c.isDigit || (c.isLower && c.toNat ≤ 102)

/-- Path separators and the filesystem-special characters of POSIX and
Windows file names, plus NUL. -/
def fsSpecialChars : List Char :=
  ['/', '\\', ':', '*', '?', '"', '<', '>', '|', Char.ofNat 0]

lemma mk_data (s : String) : String.mk s.data = s := by
  cases s
  rfl

lemma word_of_digit (c : Char) (h : c.isDigit = true) : isWordChar c = true := by
  simp [isWordChar, Char.isAlphanum, h]

lemma word_of_hex (c : Char) (h : isHexChar c = true) : isWordChar c = true := by
  simp only [isHexChar, Bool.or_eq_true, Bool.and_eq_true] at h
  rcases h with h | ⟨h, _⟩
  · exact word_of_digit c h
  · simp [isWordChar, Char.isAlphanum, Char.isAlpha, h]

lemma word_or_hyphen_not_special (c : Char) (h : isWordChar c = true ∨ c = '-') :
    c ∉ fsSpecialChars := by
  intro hmem
  simp only [fsSpecialChars, List.mem_cons, List.not_mem_nil, or_false] at hmem
  rcases h with hw | rfl
  · rcases hmem with rfl | rfl | rfl | rfl | rfl | rfl | rfl | rfl | rfl | rfl <;>
      exact absurd hw (by decide)
  · revert hmem
    decide

lemma collapse_chars : ∀ (l : List Char) (b : Bool),
    (∀ c ∈ l, keepChar c = true) →
    ∀ c ∈ collapseWsAux b l, isWordChar c = true ∨ c = '-' := by
  intro l
  induction l with
  | nil =>
    intro b _ c hc
    simp [collapseWsAux] at hc
  | cons a rest ih =>
    intro b h c hc
    have ha : keepChar a = true := h a (by simp)
    have hrest : ∀ x ∈ rest, keepChar x = true := fun x hx => h x (by simp [hx])
    by_cases hs : isSpaceChar a = true
    · simp only [collapseWsAux, hs, if_true] at hc
      rcases List.mem_append.mp hc with h1 | h2
      · cases b with
        | true => simp at h1
        | false =>
          simp at h1
          right
          exact h1
      · exact ih true hrest c h2
    · simp only [collapseWsAux, hs, if_false, Bool.false_eq_true, List.mem_cons] at hc
      rcases hc with rfl | h2
      · simp only [keepChar, Bool.or_eq_true] at ha
        rcases ha with (hw | hsp) | hh
        · exact Or.inl hw
        · exact absurd hsp hs
        · exact Or.inr (by simpa using hh)
      · exact ih false hrest c h2

lemma create_safe_filename_data (ts uid title : String) :
    (create_safe_filename ts uid title).data =
      ts.data ++ "_".data ++ collapseWsAux false (title.data.filter keepChar)
        ++ "_".data ++ uid.data := by
  cases ts
  cases uid
  simp [create_safe_filename, String.data_append]

lemma pySplitChar_no_sep (sep : Char) (l : List Char) (h : sep ∉ l) :
    pySplitChar sep l = [l] := by
  induction l with
  | nil => rfl
  | cons c rest ih =>
    have hc : ¬(c = sep) := by
      rintro rfl
      exact h (by simp)
    have hr : sep ∉ rest := fun hm => h (by simp [hm])
    simp [pySplitChar, ih hr, hc]

/-- Claim C8: listAll returns an empty file sequence (not an error) when the
storage directory is missing or empty, and otherwise one entry per directory
entry carrying its filename, size, and a download URL of the shape
/download/ followed by the filename, recomputed from the directory state
passed to each call. -/
theorem list_downloads_spec :
    (list_downloads none = { files := [] } ∧
     list_downloads (some []) = { files := [] }) ∧
    ∀ entries, (list_downloads (some entries)).files =
      entries.map (fun e =>
        { filename := e.1, size := e.2, download_url := "/download/" ++ e.1 }) :=
  ⟨⟨rfl, rfl⟩, fun _ => rfl⟩

/-- Claim C10: health_check is a total function: for every credential state,
directory and clock reading it returns status healthy, the given timestamp
and directory, and a cookies_configured flag that is true exactly when the
credential value is a non-empty string. -/
theorem health_check_spec (cookiesEnv : Option String) (downloadsDir now : String) :
    (health_check cookiesEnv downloadsDir now).status = "healthy" ∧
    (health_check cookiesEnv downloadsDir now).timestamp = now ∧
    (health_check cookiesEnv downloadsDir now).downloads_dir = downloadsDir ∧
    ((health_check cookiesEnv downloadsDir now).cookies_configured = true ↔
      ∃ s, cookiesEnv = some s ∧ s ≠ "") := by
  refine ⟨rfl, rfl, rfl, ?_⟩
  cases cookiesEnv with
  | none => simp [health_check, COOKIES_falsy]
  | some s =>
    simp [health_check, COOKIES_falsy]
    rw [Bool.eq_false_iff]
    exact not_congr (String.isEmpty_iff s)

/-- Claim C7: create_safe_filename has no error conditions (it is a total
function of its inputs), and on the empty title it returns the date stamp,
two consecutive underscores, and the random suffix. -/
theorem create_safe_filename_empty (timestamp unique_id : String) :
    create_safe_filename timestamp unique_id "" = timestamp ++ "__" ++ unique_id := by
  apply String.ext
  cases timestamp
  cases unique_id
  simp [create_safe_filename, collapseWsAux, String.data_append]

/-- Claim C6: two calls of create_safe_filename on the same title that draw
distinct random suffixes return distinct strings, even though the date
prefix and the sanitized-title portion coincide. -/
theorem create_safe_filename_distinct (timestamp title : String) (u1 u2 : String)
    (h : u1 ≠ u2) :
    create_safe_filename timestamp u1 title ≠ create_safe_filename timestamp u2 title := by
  intro heq
  apply h
  have hd := congrArg String.data heq
  rw [create_safe_filename_data, create_safe_filename_data] at hd
  exact String.ext (List.append_cancel_left hd)

theorem create_safe_filename_distinct_witness :
    create_safe_filename "20240101" "aaaabbbb" "song" ≠
      create_safe_filename "20240101" "aaaabbbc" "song" :=
  create_safe_filename_distinct "20240101" "song" "aaaabbbb" "aaaabbbc" (by decide)

/-- Claim C9: when the requested filename contains no dot, the second
candidate probed by get_file is the filename, a dot, and the whole filename
again, because indexing the dot-split at -1 yields the entire name. -/
theorem dotless_second_probe (downloadsDir fn : String) (h : '.' ∉ fn.data) :
    (possible_paths downloadsDir fn)[1]? = some (pyJoin downloadsDir (fn ++ "." ++ fn)) := by
  have hl : last_dot_component fn = fn := by
    simp [last_dot_component, pySplitChar_no_sep '.' fn.data h, mk_data]
  simp [possible_paths, hl]

theorem dotless_second_probe_witness :
    (possible_paths DOWNLOADS_DIR "foo")[1]? = some "/tmp/downloads/foo.foo" := by
  rw [dotless_second_probe DOWNLOADS_DIR "foo" (by decide)]
  decide

/-- Claim C3: for every title, with the clock rendered as 8 digits and the
random draw as 8 lowercase hex characters, create_safe_filename matches the
pattern of 8 digits, an underscore, a sanitized segment of word characters
and hyphens, an underscore, and 8 hex characters; every character of the
result is a word character or a hyphen, and none of them is a path
separator or another filesystem-special character. -/
theorem create_safe_filename_pattern (ts uid title : String)
    (hts : ts.length = 8 ∧ ∀ c ∈ ts.data, c.isDigit = true)
    (huid : uid.length = 8 ∧ ∀ c ∈ uid.data, isHexChar c = true) :
    (∃ d m x, (create_safe_filename ts uid title).data = d ++ '_' :: (m ++ '_' :: x) ∧
       d.length = 8 ∧ (∀ c ∈ d, c.isDigit = true) ∧
       (∀ c ∈ m, isWordChar c = true ∨ c = '-') ∧
       x.length = 8 ∧ (∀ c ∈ x, isHexChar c = true)) ∧
    (∀ c ∈ (create_safe_filename ts uid title).data, isWordChar c = true ∨ c = '-') ∧
    (∀ c ∈ (create_safe_filename ts uid title).data, c ∉ fsSpecialChars) := by
  obtain ⟨hts1, hts2⟩ := hts
  obtain ⟨hu1, hu2⟩ := huid
  have hmid : ∀ c ∈ collapseWsAux false (title.data.filter keepChar),
      isWordChar c = true ∨ c = '-' :=
    collapse_chars (title.data.filter keepChar) false
      (fun c hc => (List.mem_filter.mp hc).2)
  have hdata : (create_safe_filename ts uid title).data =
      ts.data ++ '_' :: (collapseWsAux false (title.data.filter keepChar) ++ '_' :: uid.data) := by
    rw [create_safe_filename_data]
    simp
  have hword : ∀ c ∈ (create_safe_filename ts uid title).data,
      isWordChar c = true ∨ c = '-' := by
    intro c hc
    rw [hdata] at hc
    rcases List.mem_append.mp hc with h1 | h2
    · exact Or.inl (word_of_digit c (hts2 c h1))
    · rcases List.mem_cons.mp h2 with rfl | h3
      · exact Or.inl (by decide)
      · rcases List.mem_append.mp h3 with h4 | h5
        · exact hmid c h4
        · rcases List.mem_cons.mp h5 with rfl | h6
          · exact Or.inl (by decide)
          · exact Or.inl (word_of_hex c (hu2 c h6))
  refine ⟨⟨ts.data, collapseWsAux false (title.data.filter keepChar), uid.data,
      hdata, hts1, hts2, hmid, hu1, hu2⟩, hword, ?_⟩
  intro c hc
  exact word_or_hyphen_not_special c (hword c hc)

theorem create_safe_filename_pattern_witness :
    (∃ d m x,
       (create_safe_filename "20240101" "ab12cd34" "My Song / B-Side \\ <Live>!").data =
         d ++ '_' :: (m ++ '_' :: x) ∧
       d.length = 8 ∧ (∀ c ∈ d, c.isDigit = true) ∧
       (∀ c ∈ m, isWordChar c = true ∨ c = '-') ∧
       x.length = 8 ∧ (∀ c ∈ x, isHexChar c = true)) ∧
    (∀ c ∈ (create_safe_filename "20240101" "ab12cd34" "My Song / B-Side \\ <Live>!").data,
       isWordChar c = true ∨ c = '-') ∧
    (∀ c ∈ (create_safe_filename "20240101" "ab12cd34" "My Song / B-Side \\ <Live>!").data,
       c ∉ fsSpecialChars) :=
  create_safe_filename_pattern "20240101" "ab12cd34" "My Song / B-Side \\ <Live>!"
    ⟨by decide, by decide⟩ ⟨by decide, by decide⟩

/-- Claim C5: a DownloadError from either extract_info call of
POST /download/audio whose message contains the age-gate phrase is surfaced
as 400 with the dedicated age-restriction message, and any other
DownloadError is surfaced as 400 carrying the underlying message. -/
theorem download_error_translation (cookiesEnv : Option String)
    (downloadsDir : String) (ex : Extractor) (fs0 : List String)
    (timestamp unique_id url format quality msg : String)
    (hc : COOKIES_falsy cookiesEnv = false)
    (herr : ex.probe = .error (.downloadError msg) ∨
      (∃ info, ex.probe = .ok info ∧ ex.download = .error (.downloadError msg))) :
    (download_audio cookiesEnv downloadsDir ex fs0 timestamp unique_id
        url format quality).result =
      .error (if strContains msg "Sign in to confirm your age" then
        { status_code := 400,
          detail := "Age-restricted video. Please check your cookies configuration." }
      else
        { status_code := 400, detail := msg }) := by
  rcases herr with hp | ⟨info, hp, hd⟩
  · simp [download_audio, get_yt_dlp_options, verify_cookies, hc, hp, translate_exc]
  · simp [download_audio, get_yt_dlp_options, verify_cookies, hc, hp, hd, translate_exc]

theorem download_error_translation_witness :
    (download_audio (some "cookiedata") DOWNLOADS_DIR
        { probe := .error (.downloadError
            "ERROR: Sign in to confirm your age. This video may be inappropriate."),
          download := .error (.otherError "") }
        [] "20240101" "ab12cd34" "https://example.com/v" "mp3" "192").result =
      .error { status_code := 400,
               detail := "Age-restricted video. Please check your cookies configuration." } := by
  rw [download_error_translation (some "cookiedata") DOWNLOADS_DIR
    { probe := .error (.downloadError
        "ERROR: Sign in to confirm your age. This video may be inappropriate."),
      download := .error (.otherError "") }
    [] "20240101" "ab12cd34" "https://example.com/v" "mp3" "192"
    "ERROR: Sign in to confirm your age. This video may be inappropriate."
    (by decide) (Or.inl rfl)]
  decide

lemma missing_cookies_outcome (cookiesEnv : Option String)
    (downloadsDir : String) (ex : Extractor) (fs0 : List String)
    (timestamp unique_id url format quality iurl : String)
    (h : COOKIES_falsy cookiesEnv = true) :
    (download_audio cookiesEnv downloadsDir ex fs0 timestamp unique_id
        url format quality).result =
      .error { status_code := 400,
               detail := "500: YouTube cookies not configured. Please set YOUTUBE_COOKIES environment variable." } ∧
    (get_video_info cookiesEnv downloadsDir ex iurl).1 =
      .error { status_code := 400,
               detail := "500: YouTube cookies not configured. Please set YOUTUBE_COOKIES environment variable." } ∧
    (download_audio cookiesEnv downloadsDir ex fs0 timestamp unique_id
        url format quality).extractorCalls = 0 ∧
    (get_video_info cookiesEnv downloadsDir ex iurl).2 = 0 := by
  refine ⟨?_, ?_, ?_, ?_⟩
  · simp only [download_audio, get_yt_dlp_options, verify_cookies, h, if_true]
    simp [translate_exc, pyStr]
    decide
  · simp only [get_video_info, get_yt_dlp_options, verify_cookies, h, if_true]
    simp [pyStr]
    decide
  · simp [download_audio, get_yt_dlp_options, verify_cookies, h]
  · simp [get_video_info, get_yt_dlp_options, verify_cookies, h]

/-- Claim C1 (evaluation at the failing input): with the credential unset or
empty, POST /download/audio and GET /info both answer 400, not 500: the
HTTPException with status 500 raised by verify_cookies is caught by the
broad except clause of each handler and re-raised as status 400 whose
detail is str of the original exception. -/
theorem missing_cookies_yields_400 (cookiesEnv : Option String)
    (downloadsDir : String) (ex : Extractor) (fs0 : List String)
    (timestamp unique_id url format quality iurl : String)
    (h : COOKIES_falsy cookiesEnv = true) :
    (download_audio cookiesEnv downloadsDir ex fs0 timestamp unique_id
        url format quality).result =
      .error { status_code := 400,
               detail := "500: YouTube cookies not configured. Please set YOUTUBE_COOKIES environment variable." } ∧
    (get_video_info cookiesEnv downloadsDir ex iurl).1 =
      .error { status_code := 400,
               detail := "500: YouTube cookies not configured. Please set YOUTUBE_COOKIES environment variable." } := by
  obtain ⟨h1, h2, _, _⟩ := missing_cookies_outcome cookiesEnv downloadsDir ex fs0
    timestamp unique_id url format quality iurl h
  exact ⟨h1, h2⟩

theorem missing_cookies_yields_400_witness :
    (download_audio none DOWNLOADS_DIR
        { probe := .error (.otherError ""), download := .error (.otherError "") }
        [] "20240101" "ab12cd34" "https://example.com/v" "mp3" "192").result =
      .error { status_code := 400,
               detail := "500: YouTube cookies not configured. Please set YOUTUBE_COOKIES environment variable." } ∧
    (get_video_info none DOWNLOADS_DIR
        { probe := .error (.otherError ""), download := .error (.otherError "") }
        "https://example.com/v").1 =
      .error { status_code := 400,
               detail := "500: YouTube cookies not configured. Please set YOUTUBE_COOKIES environment variable." } :=
  missing_cookies_yields_400 none DOWNLOADS_DIR
    { probe := .error (.otherError ""), download := .error (.otherError "") }
    [] "20240101" "ab12cd34" "https://example.com/v" "mp3" "192"
    "https://example.com/v" rfl

/-- Claim C4: with the credential unset or empty, both POST /download/audio
and GET /info fail with the configuration error before any extract_info
call is attempted: the surfaced detail mentions the missing cookies and the
extractor call count is zero in both handlers. -/
theorem config_error_precedes_extractor (cookiesEnv : Option String)
    (downloadsDir : String) (ex : Extractor) (fs0 : List String)
    (timestamp unique_id url format quality iurl : String)
    (h : COOKIES_falsy cookiesEnv = true) :
    (∃ e, (download_audio cookiesEnv downloadsDir ex fs0 timestamp unique_id
        url format quality).result = .error e ∧
      strContains e.detail "YouTube cookies not configured" = true) ∧
    (download_audio cookiesEnv downloadsDir ex fs0 timestamp unique_id
        url format quality).extractorCalls = 0 ∧
    (∃ e, (get_video_info cookiesEnv downloadsDir ex iurl).1 = .error e ∧
      strContains e.detail "YouTube cookies not configured" = true) ∧
    (get_video_info cookiesEnv downloadsDir ex iurl).2 = 0 := by
  obtain ⟨h1, h2, h3, h4⟩ := missing_cookies_outcome cookiesEnv downloadsDir ex fs0
    timestamp unique_id url format quality iurl h
  exact ⟨⟨_, h1, by decide⟩, h3, ⟨_, h2, by decide⟩, h4⟩

theorem config_error_precedes_extractor_witness :
    (∃ e, (download_audio none DOWNLOADS_DIR
        { probe := .error (.otherError ""), download := .error (.otherError "") }
        [] "20240101" "ab12cd34" "https://example.com/v" "mp3" "192").result = .error e ∧
      strContains e.detail "YouTube cookies not configured" = true) ∧
    (download_audio none DOWNLOADS_DIR
        { probe := .error (.otherError ""), download := .error (.otherError "") }
        [] "20240101" "ab12cd34" "https://example.com/v" "mp3" "192").extractorCalls = 0 ∧
    (∃ e, (get_video_info none DOWNLOADS_DIR
        { probe := .error (.otherError ""), download := .error (.otherError "") }
        "https://example.com/v").1 = .error e ∧
      strContains e.detail "YouTube cookies not configured" = true) ∧
    (get_video_info none DOWNLOADS_DIR
        { probe := .error (.otherError ""), download := .error (.otherError "") }
        "https://example.com/v").2 = 0 :=
  config_error_precedes_extractor none DOWNLOADS_DIR
    { probe := .error (.otherError ""), download := .error (.otherError "") }
    [] "20240101" "ab12cd34" "https://example.com/v" "mp3" "192"
    "https://example.com/v" rfl

/-- Claim C2: get_file probes exactly the three candidate paths in the
order exact name, name with its final extension repeated, name with the
duplicated mp3 suffix collapsed; it serves the first existing candidate
with the declared filename being the requested name with the duplicated
mp3 suffix collapsed, and with none existing it fails 404 listing the
three probed paths; in particular a directory holding foo.mp3.mp3 answers
a request for foo.mp3 with that file under the declared name foo.mp3. -/
theorem get_file_probe_protocol (downloadsDir : String) (fs : List String)
    (filename : String) :
    (get_file downloadsDir fs filename =
      if pyJoin downloadsDir filename ∈ fs then
        .ok { path := pyJoin downloadsDir filename,
              filename := pyReplace filename ".mp3.mp3" ".mp3",
              media_type := "audio/mpeg" }
      else if pyJoin downloadsDir (filename ++ "." ++ last_dot_component filename) ∈ fs then
        .ok { path := pyJoin downloadsDir (filename ++ "." ++ last_dot_component filename),
              filename := pyReplace filename ".mp3.mp3" ".mp3",
              media_type := "audio/mpeg" }
      else if pyJoin downloadsDir (pyReplace filename ".mp3.mp3" ".mp3") ∈ fs then
        .ok { path := pyJoin downloadsDir (pyReplace filename ".mp3.mp3" ".mp3"),
              filename := pyReplace filename ".mp3.mp3" ".mp3",
              media_type := "audio/mpeg" }
      else
        .error { status_code := 404,
                 detail := "File not found. Tried paths: " ++
                   pyListRepr [pyJoin downloadsDir filename,
                     pyJoin downloadsDir (filename ++ "." ++ last_dot_component filename),
                     pyJoin downloadsDir (pyReplace filename ".mp3.mp3" ".mp3")] }) ∧
    get_file DOWNLOADS_DIR [pyJoin DOWNLOADS_DIR "foo.mp3.mp3"] "foo.mp3" =
      .ok { path := pyJoin DOWNLOADS_DIR "foo.mp3.mp3",
            filename := "foo.mp3",
            media_type := "audio/mpeg" } := by
  refine ⟨?_, by decide⟩
  by_cases h1 : pyJoin downloadsDir filename ∈ fs
  · simp [get_file, possible_paths, List.find?, h1]
  · by_cases h2 : pyJoin downloadsDir (filename ++ "." ++ last_dot_component filename) ∈ fs
    · simp [get_file, possible_paths, List.find?, h1, h2]
    · by_cases h3 : pyJoin downloadsDir (pyReplace filename ".mp3.mp3" ".mp3") ∈ fs
      · simp [get_file, possible_paths, List.find?, h1, h2, h3]
      · simp [get_file, possible_paths, List.find?, h1, h2, h3]

end YtDlpApi
